import Mathlib

/-!
Shallow embedding of the core of `src/dmgr.py` (class `DaemonManager`).

Modelling conventions:
* The external world at each polling tick is a `Snap` (PID-file content,
  process table, helper-process poll status).  Real time is discretised:
  one tick per iteration of a 0.5-second polling loop, and the 3-second
  grace wait in the cleanup block is modelled as 3 ticks.
* The PID file's content is modelled as `Option Nat`: `none` means the file
  is absent (`file_exists` is false / `open` raises FileNotFoundError),
  `some pid` means the file exists and holds the decimal integer `pid`
  (the claims under study never involve unparsable content).
* Python exceptions that escape a function, and `sys.exit(1)`, are modelled
  as `Except Fatal` results; every `Fatal` value makes the interpreter
  terminate with a non-zero exit status.
* `psutil.Process(pid)` raising `NoSuchProcess` is `get_process = none`;
  `psutil.Process(None)` denotes the calling process itself (`selfPid`).
-/

namespace Dmgr

/-- Abnormal termination of the Python process: either an explicit
`sys.exit(1)` or an uncaught exception (both end the process with a
non-zero exit status). -/
inductive Fatal
  | sysExit
  | nameError
  | keyError
  | osError
  | attributeError
  | fileNotFoundError
  | timeoutExpired
deriving DecidableEq, Repr

/-- `class ExpectedOutcome(Enum)` in dmgr.py (PROCESS_RUNNING / PROCESS_STOPPED). -/
inductive ExpectedOutcome
  | running
  | stopped
deriving DecidableEq, Repr

/-- A snapshot of the external world at one polling tick:
* `pidfile` — content of the PID file (`none` = file absent);
* `procExists p` — pid `p` is present in the OS process table
  (`psutil.Process(p)` does not raise `NoSuchProcess`);
* `procZombie p` — pid `p` is in zombie state;
* `helperPollDone` — `cmd_subproc.poll()` returns a non-`None` exit code;
* `procName p` — the name `psutil.Process(p).name()` reports. -/
structure Snap where
  pidfile : Option Nat
  procExists : Nat → Bool
  procZombie : Nat → Bool
  helperPollDone : Bool
  procName : Nat → String

/-- `DaemonManager.get_process` (dmgr.py lines 35-42): returns a handle for
`pid`, `none` when the pid is not found.  A Python `None` argument makes
`psutil.Process` refer to the calling process itself. -/
def get_process (s : Snap) (selfPid : Nat) (pid : Option Nat) : Option Nat :=
  match pid with
  | none => some selfPid
  | some p => if s.procExists p then some p else none

/-- Whether a pid is running and not a zombie (the body of
`is_proc_running` for a non-`None` handle). -/
def runningB (s : Snap) (p : Nat) : Bool :=
  s.procExists p && !s.procZombie p

/-- `DaemonManager.is_proc_running` (dmgr.py lines 64-72).  Only
`psutil.NoSuchProcess` is caught; calling it on `None` raises
`AttributeError` (`None.is_running()`). -/
def is_proc_running (s : Snap) (proc : Option Nat) : Except Fatal Bool :=
  match proc with
  | none => Except.error Fatal.attributeError
  | some p => Except.ok (runningB s p)

/-- Python `pid != old_pid` where `old_pid` may be `None`
(an int never equals `None`). -/
def pidNeq (pid : Nat) (old : Option Nat) : Bool :=
  match old with
  | none => true
  | some o => pid ≠ o

/-- Outcome of one iteration of the first polling loop of
`run_cmd_and_wait`: break out of the loop, or continue with the
updated `new_pid`. -/
inductive DStep
  | brk (newPid : Option Nat)
  | cont (newPid : Option Nat)
deriving DecidableEq, Repr

/-- dmgr.py lines 125-130: `if new_pid is not None: proc =
self.get_process(new_pid); if proc is not None: break`. -/
def checkNew (s : Snap) (newPid : Option Nat) : DStep :=
  match newPid with
  | some np => if s.procExists np then DStep.brk (some np) else DStep.cont (some np)
  | none => DStep.cont none

/-- One iteration of the detection loop of `run_cmd_and_wait`
(dmgr.py lines 108-132), at tick `t` with loop variable `new_pid`.
In RUNNING mode, `cmd_subproc.poll()` is called first: with no command
(`cmd_subproc is None`) this raises `AttributeError`. -/
def detectBody (env : Nat → Snap) (selfPid : Nat) (cmdSub : Option Nat)
    (oldPid : Option Nat) (eo : ExpectedOutcome) (t : Nat) (newPid : Option Nat) :
    Except Fatal DStep :=
  match eo with
  | ExpectedOutcome.running =>
    match cmdSub with
    | none => Except.error Fatal.attributeError
    | some _ =>
      let s := env t
      let newPid' :=
        match newPid, s.pidfile with
        | none, some pid =>
          if pidNeq pid oldPid || s.helperPollDone then some pid else none
        | _, _ => newPid
      Except.ok (checkNew s newPid')
  | ExpectedOutcome.stopped =>
    match get_process (env t) selfPid oldPid with
    | none => Except.ok (DStep.brk newPid)
    | some _ => Except.ok (checkNew (env t) newPid)

/-- The detection loop of `run_cmd_and_wait` (dmgr.py lines 108-132),
with `fuel` remaining ticks before the absolute deadline and current tick
`t`.  Returns `(some t', new_pid)` when the loop `break`s at tick `t'`,
and `(none, new_pid)` when the deadline is reached first (so that the
timeout check at lines 134-136 fires). -/
def detectLoop (env : Nat → Snap) (selfPid : Nat) (cmdSub : Option Nat)
    (oldPid : Option Nat) (eo : ExpectedOutcome) :
    Nat → Nat → Option Nat → Except Fatal (Option Nat × Option Nat)
  | 0, _t, newPid => Except.ok (none, newPid)
  | fuel + 1, t, newPid =>
    match detectBody env selfPid cmdSub oldPid eo t newPid with
    | Except.error e => Except.error e
    | Except.ok (DStep.brk np) => Except.ok (some t, np)
    | Except.ok (DStep.cont np) => detectLoop env selfPid cmdSub oldPid eo fuel (t + 1) np

/-- Outcome of one iteration of the stabilization loop: the early
`return False` at dmgr.py line 149, a `break`, or continue. -/
inductive SStep
  | earlyFalse
  | brk
  | cont (pidv : Option Nat)
deriving DecidableEq, Repr

/-- Result of the stabilization loop: the early `return False`, or normal
exit (by `break` or deadline) at tick `t`. -/
inductive StabOut
  | earlyFalse
  | done (t : Nat)
deriving DecidableEq, Repr

/-- One iteration of the stabilization loop of `run_cmd_and_wait`
(dmgr.py lines 140-155).  In RUNNING mode the body first re-reads the PID
file with no existence check (`pid = int(self.load_text(pidfile).strip())`,
line 144 — FileNotFoundError when the file is absent), then re-checks
`old_pid` (line 146, the original pre-transition pid) and returns `False`
for the whole function when it is gone.  In STOPPED mode it waits for the
helper process to finish (`is_proc_running(cmd_proc)`, line 152 —
AttributeError when `cmd_proc is None`). -/
def stabBody (env : Nat → Snap) (selfPid : Nat) (cmdProc : Option Nat)
    (oldPid : Option Nat) (eo : ExpectedOutcome) (t : Nat) (pidv : Option Nat) :
    Except Fatal SStep :=
  match eo with
  | ExpectedOutcome.running =>
    match (match pidv with
           | some p => Except.ok (some p)
           | none =>
             match (env t).pidfile with
             | none => Except.error Fatal.fileNotFoundError
             | some p => Except.ok (some p)) with
    | Except.error e => Except.error e
    | Except.ok pidv' =>
      match get_process (env t) selfPid oldPid with
      | none => Except.ok SStep.earlyFalse
      | some _ => Except.ok (SStep.cont pidv')
  | ExpectedOutcome.stopped =>
    match is_proc_running (env t) cmdProc with
    | Except.error e => Except.error e
    | Except.ok false => Except.ok SStep.brk
    | Except.ok true => Except.ok (SStep.cont pidv)

/-- The stabilization loop of `run_cmd_and_wait` (dmgr.py lines 140-155),
sharing the original deadline with the detection loop. -/
def stabLoop (env : Nat → Snap) (selfPid : Nat) (cmdProc : Option Nat)
    (oldPid : Option Nat) (eo : ExpectedOutcome) :
    Nat → Nat → Option Nat → Except Fatal StabOut
  | 0, t, _pidv => Except.ok (StabOut.done t)
  | fuel + 1, t, pidv =>
    match stabBody env selfPid cmdProc oldPid eo t pidv with
    | Except.error e => Except.error e
    | Except.ok SStep.earlyFalse => Except.ok StabOut.earlyFalse
    | Except.ok SStep.brk => Except.ok (StabOut.done t)
    | Except.ok (SStep.cont p) => stabLoop env selfPid cmdProc oldPid eo fuel (t + 1) p

/-- Which termination actions the cleanup block (dmgr.py lines 157-165)
issued against the helper process. -/
structure CleanupActions where
  terminated : Bool
  killed : Bool
deriving DecidableEq, Repr

/-- `cmd_subproc.wait(timeout=3)` after `terminate()`: the earliest tick
`≤ t + 3` at which the helper has left the process table, `none` when it
survives the whole grace period (in which case `wait` raises
`TimeoutExpired`, which dmgr.py does not catch). -/
def waitExit (env : Nat → Snap) (hp t : Nat) : Option Nat :=
  if !(env t).procExists hp then some t
  else if !(env (t + 1)).procExists hp then some (t + 1)
  else if !(env (t + 2)).procExists hp then some (t + 2)
  else if !(env (t + 3)).procExists hp then some (t + 3)
  else none

/-- The cleanup block of `run_cmd_and_wait` (dmgr.py lines 157-165),
entered at tick `t`: if a command was launched and its process is still
running, send SIGTERM and wait up to 3 seconds; then, if still running,
send SIGKILL.  Returns the actions issued and the tick afterwards. -/
def cleanup (env : Nat → Snap) (cmdSub cmdProc : Option Nat) (t : Nat) :
    Except Fatal (CleanupActions × Nat) :=
  match cmdSub with
  | none => Except.ok ({ terminated := false, killed := false }, t)
  | some _ =>
    match cmdProc with
    | none => Except.error Fatal.attributeError
    | some hp =>
      if runningB (env t) hp then
        match waitExit env hp t with
        | none => Except.error Fatal.timeoutExpired
        | some t' =>
          if runningB (env t') hp then
            Except.ok ({ terminated := true, killed := true }, t')
          else
            Except.ok ({ terminated := true, killed := false }, t')
      else
        if runningB (env t) hp then
          Except.ok ({ terminated := false, killed := true }, t)
        else
          Except.ok ({ terminated := false, killed := false }, t)

/-- `DaemonManager.run_cmd_and_wait` (dmgr.py lines 85-173).

The `cmd` argument collapses the command string and the outcome of
`start_subprocess`: `none` = Python `cmd is None` (no command);
`some none` = a command whose executable is not found
(`start_subprocess` returns `None`, the function returns `False` at
line 101); `some (some h)` = a command spawning a helper with pid `h`.

The result pairs the Python return value with the cleanup actions issued
against the helper.  Note the two early `return False` paths (deadline
reached before detection, line 136; old pid gone during stabilization,
line 149) skip the cleanup block entirely. -/
def run_cmd_and_wait (env : Nat → Snap) (selfPid : Nat) (cmd : Option (Option Nat))
    (waittime : Nat) (eo : ExpectedOutcome) : Except Fatal (Bool × CleanupActions) :=
  let oldPid := (env 0).pidfile
  match cmd with
  | some none => Except.ok (false, { terminated := false, killed := false })
  | _ =>
    let cmdSub : Option Nat := match cmd with
      | some (some h) => some h
      | _ => none
    let cmdProc : Option Nat := match cmdSub with
      | some h => get_process (env 0) selfPid (some h)
      | none => none
    match detectLoop env selfPid cmdSub oldPid eo waittime 0 none with
    | Except.error e => Except.error e
    | Except.ok (none, _) => Except.ok (false, { terminated := false, killed := false })
    | Except.ok (some t0, _np) =>
      match stabLoop env selfPid cmdProc oldPid eo (waittime - t0) t0 none with
      | Except.error e => Except.error e
      | Except.ok StabOut.earlyFalse =>
        Except.ok (false, { terminated := false, killed := false })
      | Except.ok (StabOut.done t1) =>
        match cleanup env cmdSub cmdProc t1 with
        | Except.error e => Except.error e
        | Except.ok (acts, t2) =>
          match eo with
          | ExpectedOutcome.stopped =>
            Except.ok ((get_process (env t2) selfPid oldPid).isNone, acts)
          | ExpectedOutcome.running => Except.ok (true, acts)

/-- Result of one watchdog iteration of `DaemonManager.run`:
keep monitoring with the refreshed pid/handle, or the fatal
"Process exited unexpectedly" exit. -/
inductive WatchRes
  | keep (mainPid : Nat) (mainProc : Option Nat)
  | exitUnexpected
deriving DecidableEq, Repr

/-- The watchdog step of the monitoring loop (dmgr.py lines 338-348):
re-read `main_pid` from the PID file when unknown (`int(self.load_text
(self.pidfile).strip())` — no existence check, so a missing file raises
FileNotFoundError), re-resolve `main_proc` when unknown, then exit
fatally when the main process is not running. -/
def watchdog_step (s : Snap) (selfPid : Nat) (mainPid : Option Nat)
    (mainProc : Option Nat) : Except Fatal WatchRes :=
  match (match mainPid with
         | some p => Except.ok (p, mainProc)
         | none =>
           match s.pidfile with
           | none => Except.error Fatal.fileNotFoundError
           | some p => Except.ok (p, (none : Option Nat))) with
  | Except.error e => Except.error e
  | Except.ok (mp, mproc0) =>
    let mproc := match mproc0 with
      | some q => some q
      | none => get_process s selfPid (some mp)
    match is_proc_running s mproc with
    | Except.error e => Except.error e
    | Except.ok false => Except.ok WatchRes.exitUnexpected
    | Except.ok true => Except.ok (WatchRes.keep mp mproc)

/-- Result of the startup guard: proceed with startup, or the
"already running" `sys.exit(1)`. -/
inductive GuardRes
  | proceed
  | alreadyRunning
deriving DecidableEq, Repr

/-- Python `str.lower()` on a name. -/
def strToLower (s : String) : String :=
  String.mk (s.data.map Char.toLower)

/-- `DaemonManager.get_pid_info` (dmgr.py lines 185-190): resolve the pid
named by the PID file, `none` when the file is absent or the pid is
not found. -/
def get_pid_info (s : Snap) (selfPid : Nat) : Option Nat :=
  match s.pidfile with
  | none => none
  | some pid => get_process s selfPid (some pid)

/-- `DaemonManager.check_if_already_running` (dmgr.py lines 193-202):
when the PID file exists and names a live process whose lower-cased name
equals `processname` (already lower-cased by `__init__`), exit; otherwise
remove the PID file and proceed.  When the file does not exist, do
nothing.  Returns the decision and the filesystem state afterwards. -/
def check_if_already_running (s : Snap) (selfPid : Nat) (processname : String) :
    GuardRes × Snap :=
  match s.pidfile with
  | none => (GuardRes.proceed, s)
  | some _ =>
    match get_pid_info s selfPid with
    | some p =>
      if strToLower (s.procName p) = processname then (GuardRes.alreadyRunning, s)
      else (GuardRes.proceed, { s with pidfile := none })
    | none => (GuardRes.proceed, { s with pidfile := none })

/-- A canonical OS signal: symbolic name plus signal number. -/
structure Sig where
  name : String
  val : Nat
deriving DecidableEq, Repr

def SIGINT : Sig := ⟨"SIGINT", 2⟩
def SIGKILL : Sig := ⟨"SIGKILL", 9⟩
def SIGTERM : Sig := ⟨"SIGTERM", 15⟩
def SIGSTOP : Sig := ⟨"SIGSTOP", 19⟩
def SIGTSTP : Sig := ⟨"SIGTSTP", 20⟩

/-- `signal.valid_signals()` modelled as the standard Linux signal set
1-31 (the named, non-realtime signals). -/
def valid_signals : List Sig :=
  [⟨"SIGHUP", 1⟩, SIGINT, ⟨"SIGQUIT", 3⟩, ⟨"SIGILL", 4⟩, ⟨"SIGTRAP", 5⟩,
   ⟨"SIGABRT", 6⟩, ⟨"SIGBUS", 7⟩, ⟨"SIGFPE", 8⟩, SIGKILL, ⟨"SIGUSR1", 10⟩,
   ⟨"SIGSEGV", 11⟩, ⟨"SIGUSR2", 12⟩, ⟨"SIGPIPE", 13⟩, ⟨"SIGALRM", 14⟩,
   SIGTERM, ⟨"SIGSTKFLT", 16⟩, ⟨"SIGCHLD", 17⟩, ⟨"SIGCONT", 18⟩, SIGSTOP,
   SIGTSTP, ⟨"SIGTTIN", 21⟩, ⟨"SIGTTOU", 22⟩, ⟨"SIGURG", 23⟩,
   ⟨"SIGXCPU", 24⟩, ⟨"SIGXFSZ", 25⟩, ⟨"SIGVTALRM", 26⟩, ⟨"SIGPROF", 27⟩,
   ⟨"SIGWINCH", 28⟩, ⟨"SIGIO", 29⟩, ⟨"SIGPWR", 30⟩, ⟨"SIGSYS", 31⟩]

/-- `self.signal_lookup` (dmgr.py lines 206-213): every valid signal keyed
both by its symbolic name and by the decimal string of its number. -/
def signal_lookup : List (String × Sig) :=
  valid_signals.flatMap (fun s => [(s.name, s), (toString s.val, s)])

/-- Dictionary lookup `self.signal_lookup[k]` / `k in self.signal_lookup`. -/
def lookupSig (k : String) : Option Sig :=
  (signal_lookup.find? (fun p => p.1 == k)).map (fun p => p.2)

/-- Python `str.split(sep)` for a single-character separator: always
returns at least one (possibly empty) piece. -/
def splitChar (sep : Char) (s : String) : List String :=
  (s.data.foldr
    (fun c acc =>
      if c = sep then [] :: acc
      else
        match acc with
        | [] => [[c]]
        | g :: gs => (c :: g) :: gs)
    ([[]] : List (List Char))).map String.mk

/-- The configuration fields of `self.config` that `process_config`
consults (`"passthrough" in self.config` etc.). -/
structure Config where
  passthrough : Option String
  stopcmd : Option String
  signals : Option String
deriving DecidableEq, Repr

/-- The signal-routing state `process_config` builds:
`self.exit_signals`, `self.signal_commands`, `self.passthroughmap`
(insertion-ordered dictionaries as association lists), plus the list of
signals for which `signal.signal(sig, self.signal_handler)` ran. -/
structure RouterState where
  exit_signals : List Sig
  signal_commands : List (Sig × String)
  passthroughmap : List (Sig × Sig)
  registered : List Sig
deriving DecidableEq, Repr

/-- State at the start of `process_config`: `self.exit_signals =
[signal.SIGINT, signal.SIGTERM]`, everything else empty. -/
def initRouter : RouterState :=
  { exit_signals := [SIGINT, SIGTERM], signal_commands := [], passthroughmap := [],
    registered := [] }

/-- Python dict assignment `d[k] = v` for an insertion-ordered
association list: update in place when the key exists, else append. -/
def dictInsert : List (Sig × String) → Sig → String → List (Sig × String)
  | [], k, v => [(k, v)]
  | (k', v') :: rest, k, v =>
    if k' = k then (k', v) :: rest else (k', v') :: dictInsert rest k v

/-- The passthrough-parsing loop (dmgr.py lines 218-232).  Each entry is
split on `=`; a piece count other than 1 or 2 is a clean fatal exit
(lines 220-222).  Otherwise line 226 evaluates
`sig_in in self.signal_lookup and sig_out in signal_lookup`: when
`sig_in` is known the second conjunct is evaluated and raises NameError
(the module-level name `signal_lookup` is undefined — `self.` is
missing); when `sig_in` is unknown the condition short-circuits to the
`else` branch, which logs but does not exit (line 229 has no
`sys.exit`), and line 230 `self.signal_lookup[sig_in]` then raises
KeyError.  So processing any entry terminates the process. -/
def passthroughLoop : List String → RouterState → Except Fatal RouterState
  | [], st => Except.ok st
  | x :: _rest, _st =>
    let y := splitChar '=' x
    if y.length = 1 ∨ y.length = 2 then
      let sig_in := y.headD ""
      match lookupSig sig_in with
      | some _ => Except.error Fatal.nameError
      | none => Except.error Fatal.keyError
    else
      Except.error Fatal.sysExit

/-- dmgr.py lines 216-232: parse `self.config["passthrough"]` when
present. -/
def passthroughPhase (cfg : Config) (st : RouterState) : Except Fatal RouterState :=
  match cfg.passthrough with
  | none => Except.ok st
  | some p => passthroughLoop (splitChar ';' p) st

/-- One iteration of the `stopcmd` loop (dmgr.py lines 235-239): map
`sig` to the stop command unless a passthrough entry already claims it. -/
def addStop (st : RouterState) (sg : Sig) (sc : String) : RouterState :=
  if (st.passthroughmap.find? (fun p => p.1 == sg)).isSome then st
  else { st with signal_commands := dictInsert st.signal_commands sg sc }

/-- dmgr.py lines 234-239: when `stopcmd` is configured, map SIGTERM and
then SIGINT to it (passthrough wins with a logged warning). -/
def stopcmdPhase (cfg : Config) (st : RouterState) : RouterState :=
  match cfg.stopcmd with
  | none => st
  | some sc => addStop (addStop st SIGTERM sc) SIGINT sc

/-- The `signals` parsing loop (dmgr.py lines 243-266).  Per entry:
* split on `=`; not exactly 2 pieces → `sys.exit(1)` (lines 245-247);
* unknown signal name → `sys.exit(1)` (lines 264-266);
* SIGKILL or SIGTSTP → `sys.exit(1)` (lines 250-253; note the code tests
  SIGTSTP, not SIGSTOP);
* SIGTERM → line 254 evaluates `"stopcmd" in d` where `d` is an
  undefined name → NameError;
* SIGINT → line 258 evaluates `exit_signals.remove(...)` where
  `exit_signals` is an undefined name (`self.` missing) → NameError;
* a signal already claimed by passthrough is skipped with a warning
  (lines 260-262); otherwise the command is recorded (line 263). -/
def signalsLoop : List String → RouterState → Except Fatal RouterState
  | [], st => Except.ok st
  | x :: rest, st =>
    match splitChar '=' x with
    | [sg, cmd] =>
      match lookupSig sg with
      | none => Except.error Fatal.sysExit
      | some s =>
        if s = SIGKILL ∨ s = SIGTSTP then Except.error Fatal.sysExit
        else if s = SIGTERM then Except.error Fatal.nameError
        else if s = SIGINT then Except.error Fatal.nameError
        else if (st.passthroughmap.find? (fun p => p.1 == s)).isSome then
          signalsLoop rest st
        else
          signalsLoop rest { st with signal_commands := dictInsert st.signal_commands s cmd }
    | _ => Except.error Fatal.sysExit

/-- `signal.signal(sig, handler)`: the OS refuses to install a handler
for the uncatchable SIGKILL and SIGSTOP signals (OSError, which dmgr.py
does not catch). -/
def regSignal (sg : Sig) : Except Fatal Unit :=
  if sg = SIGKILL ∨ sg = SIGSTOP then Except.error Fatal.osError else Except.ok Unit.unit

/-- Register a handler for each signal in the list (dmgr.py lines
268-271 and 273-276), accumulating the successfully registered ones. -/
def regList : List Sig → List Sig → Except Fatal (List Sig)
  | [], acc => Except.ok acc
  | sg :: rest, acc =>
    match regSignal sg with
    | Except.error e => Except.error e
    | Except.ok _ => regList rest (acc ++ [sg])

/-- The registration block (dmgr.py lines 268-276): handlers for every
key of `signal_commands`, then for every key of `passthroughmap`. -/
def registerAll (st : RouterState) : Except Fatal RouterState :=
  match regList (st.signal_commands.map Prod.fst) [] with
  | Except.error e => Except.error e
  | Except.ok reg1 =>
    match regList (st.passthroughmap.map Prod.fst) reg1 with
    | Except.error e => Except.error e
    | Except.ok reg2 => Except.ok { st with registered := reg2 }

/-- dmgr.py lines 242-276: the whole `if "signals" in self.config:`
block.  Note the registration loops sit inside this block, so with no
`signals` key nothing is ever registered. -/
def signalsPhase (cfg : Config) (st : RouterState) : Except Fatal RouterState :=
  match cfg.signals with
  | none => Except.ok st
  | some s =>
    match signalsLoop (splitChar ';' s) st with
    | Except.error e => Except.error e
    | Except.ok st' => registerAll st'

/-- `DaemonManager.process_config` (dmgr.py lines 205-276): passthrough
parsing, stopcmd defaults, signals parsing, handler registration. -/
def process_config (cfg : Config) : Except Fatal RouterState :=
  match passthroughPhase cfg initRouter with
  | Except.error e => Except.error e
  | Except.ok st1 => signalsPhase cfg (stopcmdPhase cfg st1)

/-! Concrete worlds used to instantiate the theorems below. -/

/-- A world where the monitored pid 100 never changes and the helper
pid 7 stays alive: the expected RUNNING transition is never detected. -/
def envTimeout : Nat → Snap := fun _ =>
  { pidfile := some 100, procExists := fun p => p == 100 || p == 7,
    procZombie := fun _ => false, helperPollDone := false, procName := fun _ => "daemon" }

/-- A restart world: at tick 0 the PID file holds 100 (alive) and the
helper pid 7 runs; from tick 1 on the PID file holds 200, the helper has
exited, pid 100 is gone and the new pid 200 is alive. -/
def envRestart : Nat → Snap := fun t =>
  if t = 0 then
    { pidfile := some 100, procExists := fun p => p == 100 || p == 7,
      procZombie := fun _ => false, helperPollDone := false, procName := fun _ => "daemon" }
  else
    { pidfile := some 200, procExists := fun p => p == 200,
      procZombie := fun _ => false, helperPollDone := true, procName := fun _ => "daemon" }

/-- A world where the PID file disappears: tick 0 holds pid 100, tick 1
holds pid 200 (not yet alive), and from tick 2 on the file is gone while
pid 200 is alive. -/
def envVanish : Nat → Snap := fun t =>
  match t with
  | 0 => { pidfile := some 100, procExists := fun p => p == 7,
           procZombie := fun _ => false, helperPollDone := false, procName := fun _ => "daemon" }
  | 1 => { pidfile := some 200, procExists := fun p => p == 7,
           procZombie := fun _ => false, helperPollDone := false, procName := fun _ => "daemon" }
  | _ => { pidfile := none, procExists := fun p => p == 7 || p == 200,
           procZombie := fun _ => false, helperPollDone := false, procName := fun _ => "daemon" }

/-- A world where the PID file names pid 100 but no process exists at
all: the old process is already absent at the first check. -/
def envGone : Nat → Snap := fun _ =>
  { pidfile := some 100, procExists := fun _ => false, procZombie := fun _ => false,
    helperPollDone := false, procName := fun _ => "daemon" }

/-- A snapshot with no PID file at all. -/
def snapNoFile : Snap :=
  { pidfile := none, procExists := fun _ => true, procZombie := fun _ => false,
    helperPollDone := false, procName := fun _ => "daemon" }

/-- A snapshot with a stale PID file: pid 100 is named but dead. -/
def snapStale : Snap :=
  { pidfile := some 100, procExists := fun _ => false, procZombie := fun _ => false,
    helperPollDone := false, procName := fun _ => "other" }

/-- `snapStale` after the startup guard removed the stale PID file. -/
def snapStale' : Snap := { snapStale with pidfile := none }

/-- A snapshot whose PID file names a live but unrelated process
(name "Bash", not the configured "worker"). -/
def snapAlien : Snap :=
  { pidfile := some 100, procExists := fun p => p == 100, procZombie := fun _ => false,
    helperPollDone := false, procName := fun _ => "Bash" }

/-- A snapshot whose PID file names a live process with the configured
name (case-insensitively "worker"). -/
def snapSelfDup : Snap :=
  { pidfile := some 100, procExists := fun p => p == 100, procZombie := fun _ => false,
    helperPollDone := false, procName := fun _ => "Worker" }

/-! Helper lemmas. -/

/-- A `break` of the detection loop happens strictly before the
deadline, so the timeout check at dmgr.py line 135 does not fire. -/
theorem detectLoop_brk_lt (env : Nat → Snap) (selfPid : Nat) (cmdSub : Option Nat)
    (oldPid : Option Nat) (eo : ExpectedOutcome) :
    ∀ (fuel t : Nat) (np : Option Nat) (t' : Nat) (np' : Option Nat),
      detectLoop env selfPid cmdSub oldPid eo fuel t np = Except.ok (some t', np') →
      t' < t + fuel := by
  intro fuel
  induction fuel with
  | zero =>
    intro t np t' np' h
    simp [detectLoop] at h
  | succ n ih =>
    intro t np t' np' h
    rw [detectLoop] at h
    rcases hb : detectBody env selfPid cmdSub oldPid eo t np with e | st
    · rw [hb] at h; exact absurd h (by simp)
    · rw [hb] at h
      cases st with
      | brk np2 =>
        simp only [Except.ok.injEq, Prod.mk.injEq, Option.some.injEq] at h
        omega
      | cont np2 =>
        have := ih (t + 1) np2 t' np' h
        omega

/-! Theorems for the claims. -/

/-- C1 counterexample: in the world `envTimeout` the deadline (2 ticks)
elapses before the expected RUNNING transition is detected; the claim
says the still-alive helper (pid 7) is then sent graceful termination
and, if needed, force-killed before `run_cmd_and_wait` returns, but the
function returns failure having issued no termination action at all,
while the helper is still alive. -/
theorem C1_counterexample :
    run_cmd_and_wait envTimeout 1 (some (some 7)) 2 ExpectedOutcome.running =
      Except.ok (false, { terminated := false, killed := false }) ∧
    (envTimeout 2).procExists 7 = true :=
  ⟨rfl, rfl⟩

/-- C1 (amended): when the deadline elapses before the expected
transition is detected, `run_cmd_and_wait` returns failure immediately
(dmgr.py line 136) without running the cleanup block: even when the
helper process is still alive at the deadline, no graceful termination
and no force-kill are issued. -/
theorem C1_no_cleanup_on_detection_timeout (env : Nat → Snap) (selfPid h waittime : Nat)
    (eo : ExpectedOutcome) (np : Option Nat)
    (hdetect : detectLoop env selfPid (some h) ((env 0).pidfile) eo waittime 0 none =
      Except.ok (none, np))
    (_halive : (env waittime).procExists h = true) :
    run_cmd_and_wait env selfPid (some (some h)) waittime eo =
      Except.ok (false, { terminated := false, killed := false }) := by
  simp only [run_cmd_and_wait, hdetect]

/-- C1 witness: the amended theorem instantiated in the world
`envTimeout` with helper pid 7 and a 2-tick deadline. -/
theorem C1_witness :
    (envTimeout 2).procExists 7 = true ∧
    run_cmd_and_wait envTimeout 1 (some (some 7)) 2 ExpectedOutcome.running =
      Except.ok (false, { terminated := false, killed := false }) :=
  ⟨rfl, C1_no_cleanup_on_detection_timeout envTimeout 1 7 2 ExpectedOutcome.running none rfl rfl⟩

/-- C4 counterexample: in the restart world `envRestart` the detection
phase records the new pid 200 (alive from tick 1 on, including at the
deadline), but the stabilization phase re-checks the original pid 100
(dmgr.py line 146), finds it gone, and the function returns failure —
the claim says it would keep confirming pid 200 and succeed. -/
theorem C4_counterexample :
    run_cmd_and_wait envRestart 1 (some (some 7)) 5 ExpectedOutcome.running =
      Except.ok (false, { terminated := false, killed := false }) ∧
    (envRestart 1).procExists 200 = true ∧ (envRestart 5).procExists 200 = true :=
  ⟨rfl, rfl, rfl⟩

/-- C4 (amended): in RUNNING mode the stabilization phase re-checks the
original pre-transition pid (`old_pid`), not the newly detected one:
whenever detection breaks at tick `t0` and the original pid's process is
gone at `t0` (the PID file still being readable), `run_cmd_and_wait`
returns failure, regardless of the new pid's liveness. -/
theorem C4_stabilization_rechecks_old_pid (env : Nat → Snap) (selfPid h waittime op t0 : Nat)
    (np : Option Nat)
    (hold : (env 0).pidfile = some op)
    (hdetect : detectLoop env selfPid (some h) (some op) ExpectedOutcome.running waittime 0 none
      = Except.ok (some t0, np))
    (hfile : ((env t0).pidfile).isSome = true)
    (hdead : (env t0).procExists op = false) :
    run_cmd_and_wait env selfPid (some (some h)) waittime ExpectedOutcome.running =
      Except.ok (false, { terminated := false, killed := false }) := by
  have ht0 : t0 < waittime := by
    have := detectLoop_brk_lt env selfPid (some h) (some op) ExpectedOutcome.running
      waittime 0 none t0 np hdetect
    omega
  obtain ⟨k, hk⟩ : ∃ k, waittime - t0 = k + 1 := ⟨waittime - t0 - 1, by omega⟩
  obtain ⟨q, hq⟩ := Option.isSome_iff_exists.mp hfile
  simp only [run_cmd_and_wait, hold, hdetect, hk]
  rw [stabLoop]
  simp [stabBody, hq, get_process, hdead]

/-- C4 witness: the amended theorem instantiated in the restart world
`envRestart` (old pid 100, new pid 200 detected at tick 1). -/
theorem C4_witness :
    run_cmd_and_wait envRestart 1 (some (some 7)) 5 ExpectedOutcome.running =
      Except.ok (false, { terminated := false, killed := false }) :=
  C4_stabilization_rechecks_old_pid envRestart 1 7 5 100 1 (some 200) rfl rfl rfl rfl

/-- C7 counterexample: the watchdog re-read of the monitoring loop
(dmgr.py line 340) calls `load_text` with no existence check, so with the
PID file missing it raises FileNotFoundError instead of tolerating the
read — the claim says the supervisor does not crash there. -/
theorem C7_counterexample :
    watchdog_step snapNoFile 1 none none = Except.error Fatal.fileNotFoundError :=
  rfl

/-- C7 (amended): the detection-phase reads of `run_cmd_and_wait` guard
on `file_exists` and tolerate a missing PID file (the detection step
never raises once a helper was spawned), but the monitoring loop's
watchdog re-read and the stabilization-phase read do not: each raises an
unhandled FileNotFoundError when the PID file is missing. -/
theorem C7_missing_pidfile_reads :
    (∀ (s : Snap) (selfPid : Nat), s.pidfile = none →
      watchdog_step s selfPid none none = Except.error Fatal.fileNotFoundError) ∧
    (∀ (env : Nat → Snap) (selfPid h waittime t0 : Nat) (np : Option Nat),
      detectLoop env selfPid (some h) ((env 0).pidfile) ExpectedOutcome.running waittime 0 none
        = Except.ok (some t0, np) →
      (env t0).pidfile = none →
      run_cmd_and_wait env selfPid (some (some h)) waittime ExpectedOutcome.running =
        Except.error Fatal.fileNotFoundError) ∧
    (∀ (env : Nat → Snap) (selfPid h : Nat) (oldPid : Option Nat) (eo : ExpectedOutcome)
      (t : Nat) (np : Option Nat),
      ∃ d, detectBody env selfPid (some h) oldPid eo t np = Except.ok d) := by
  refine ⟨?_, ?_, ?_⟩
  · intro s selfPid hnone
    unfold watchdog_step
    rw [hnone]
  · intro env selfPid h waittime t0 np hdetect hnone
    have ht0 : t0 < waittime := by
      have := detectLoop_brk_lt env selfPid (some h) ((env 0).pidfile)
        ExpectedOutcome.running waittime 0 none t0 np hdetect
      omega
    obtain ⟨k, hk⟩ : ∃ k, waittime - t0 = k + 1 := ⟨waittime - t0 - 1, by omega⟩
    simp only [run_cmd_and_wait, hdetect, hk]
    rw [stabLoop]
    simp [stabBody, hnone]
  · intro env selfPid h oldPid eo t np
    cases eo with
    | running => exact ⟨_, rfl⟩
    | stopped =>
      unfold detectBody
      rcases hg : get_process (env t) selfPid oldPid with _ | p
      · exact ⟨_, rfl⟩
      · exact ⟨_, rfl⟩

/-- C7 witness: the amended theorem instantiated at `snapNoFile`
(watchdog), in the world `envVanish` where the PID file disappears at
tick 2 just as detection breaks (stabilization read), and for a
detection step in STOPPED mode. -/
theorem C7_witness :
    watchdog_step snapNoFile 1 none none = Except.error Fatal.fileNotFoundError ∧
    run_cmd_and_wait envVanish 1 (some (some 7)) 4 ExpectedOutcome.running =
      Except.error Fatal.fileNotFoundError ∧
    (∃ d, detectBody envVanish 1 (some 7) (some 100) ExpectedOutcome.stopped 2 none =
      Except.ok d) :=
  ⟨C7_missing_pidfile_reads.1 snapNoFile 1 rfl,
   C7_missing_pidfile_reads.2.1 envVanish 1 7 4 2 (some 200) rfl rfl,
   C7_missing_pidfile_reads.2.2 envVanish 1 7 (some 100) ExpectedOutcome.stopped 2 none⟩

/-- Processing any passthrough entry terminates the process: a piece
count other than 1 or 2 exits cleanly, a known first signal raises
NameError at dmgr.py line 226 (undefined name `signal_lookup`), an
unknown first signal raises KeyError at line 230 (line 229 logs
"-- exiting" but the `sys.exit` call is missing). -/
theorem passthroughLoop_fatal (x : String) (rest : List String) (st : RouterState) :
    ∃ f, passthroughLoop (x :: rest) st = Except.error f := by
  rw [passthroughLoop]
  by_cases hlen : (splitChar '=' x).length = 1 ∨ (splitChar '=' x).length = 2
  · rw [if_pos hlen]
    rcases h : lookupSig ((splitChar '=' x).headD "") with _ | s
    · exact ⟨Fatal.keyError, by simp only [h]⟩
    · exact ⟨Fatal.nameError, by simp only [h]⟩
  · rw [if_neg hlen]
    exact ⟨Fatal.sysExit, rfl⟩

/-- `splitChar` always returns at least one piece (Python `str.split`
never returns an empty list). -/
theorem splitChar_ne_nil (sep : Char) (s : String) : splitChar sep s ≠ [] := by
  unfold splitChar
  intro h
  rw [List.map_eq_nil_iff] at h
  cases hd : s.data with
  | nil => rw [hd] at h; simp at h
  | cons c l =>
    rw [hd, List.foldr_cons] at h
    split at h
    · simp at h
    · split at h <;> simp_all

/-- When `passthroughPhase` returns normally, no passthrough key was
configured and the router state is untouched. -/
theorem passthroughPhase_ok (cfg : Config) (st1 : RouterState)
    (h : passthroughPhase cfg initRouter = Except.ok st1) : st1 = initRouter := by
  unfold passthroughPhase at h
  rcases hp : cfg.passthrough with _ | p
  · simp only [hp, Except.ok.injEq] at h
    exact h.symm
  · simp only [hp] at h
    obtain ⟨y, t, hyt⟩ := List.exists_cons_of_ne_nil (splitChar_ne_nil ';' p)
    obtain ⟨f, hf⟩ := passthroughLoop_fatal y t initRouter
    rw [hyt, hf] at h
    exact absurd h (by simp)

/-- `addStop` never touches the passthrough map. -/
theorem addStop_pmap (st : RouterState) (sg : Sig) (sc : String) :
    (addStop st sg sc).passthroughmap = st.passthroughmap := by
  unfold addStop
  split <;> rfl

/-- `stopcmdPhase` never touches the passthrough map. -/
theorem stopcmdPhase_pmap (cfg : Config) (st : RouterState) :
    (stopcmdPhase cfg st).passthroughmap = st.passthroughmap := by
  unfold stopcmdPhase
  rcases hp : cfg.stopcmd with _ | sc
  · rfl
  · rw [addStop_pmap, addStop_pmap]

/-- Inserting into a Python dict keeps every existing key. -/
theorem dictInsert_mem_keys (k k' : Sig) (v : String) :
    ∀ l : List (Sig × String), k ∈ l.map Prod.fst → k ∈ (dictInsert l k' v).map Prod.fst := by
  intro l
  induction l with
  | nil => intro h; simp at h
  | cons p rest ih =>
    rcases p with ⟨k2, v2⟩
    intro h
    rw [List.map_cons] at h
    rcases List.mem_cons.mp h with h1 | h1
    · rw [dictInsert]
      by_cases hk : k2 = k'
      · rw [if_pos hk, List.map_cons]
        exact List.mem_cons.mpr (Or.inl h1)
      · rw [if_neg hk, List.map_cons]
        exact List.mem_cons.mpr (Or.inl h1)
    · rw [dictInsert]
      by_cases hk : k2 = k'
      · rw [if_pos hk, List.map_cons]
        exact List.mem_cons.mpr (Or.inr h1)
      · rw [if_neg hk, List.map_cons]
        exact List.mem_cons.mpr (Or.inr (ih h1))

/-- Inserting a key into a Python dict makes it a key. -/
theorem dictInsert_self_mem (k : Sig) (v : String) :
    ∀ l : List (Sig × String), k ∈ (dictInsert l k v).map Prod.fst := by
  intro l
  induction l with
  | nil => simp [dictInsert]
  | cons p rest ih =>
    rcases p with ⟨k2, v2⟩
    rw [dictInsert]
    by_cases hk : k2 = k
    · rw [if_pos hk, List.map_cons]
      exact List.mem_cons.mpr (Or.inl hk.symm)
    · rw [if_neg hk, List.map_cons]
      exact List.mem_cons.mpr (Or.inr ih)

/-- The signals loop never touches the passthrough map. -/
theorem signalsLoop_pmap :
    ∀ (l : List String) (st st' : RouterState),
      signalsLoop l st = Except.ok st' → st'.passthroughmap = st.passthroughmap := by
  intro l
  induction l with
  | nil =>
    intro st st' h
    simp only [signalsLoop, Except.ok.injEq] at h
    rw [← h]
  | cons x rest ih =>
    intro st st' h
    rw [signalsLoop] at h
    split at h
    · split at h
      · exact absurd h (by simp)
      · split at h
        · exact absurd h (by simp)
        · split at h
          · exact absurd h (by simp)
          · split at h
            · exact absurd h (by simp)
            · split at h
              · have h2 := ih _ st' h
                exact h2
              · have h2 := ih _ st' h
                exact h2
    · exact absurd h (by simp)

/-- The signals loop keeps every existing command-map key. -/
theorem signalsLoop_keys_mono (k : Sig) :
    ∀ (l : List String) (st st' : RouterState),
      signalsLoop l st = Except.ok st' →
      k ∈ st.signal_commands.map Prod.fst → k ∈ st'.signal_commands.map Prod.fst := by
  intro l
  induction l with
  | nil =>
    intro st st' h hk
    simp only [signalsLoop, Except.ok.injEq] at h
    rw [← h]
    exact hk
  | cons x rest ih =>
    intro st st' h hk
    rw [signalsLoop] at h
    split at h
    · split at h
      · exact absurd h (by simp)
      · split at h
        · exact absurd h (by simp)
        · split at h
          · exact absurd h (by simp)
          · split at h
            · exact absurd h (by simp)
            · split at h
              · refine ih _ st' h ?_
                exact hk
              · refine ih _ st' h ?_
                exact dictInsert_mem_keys k _ _ _ hk
    · exact absurd h (by simp)

/-- A signals entry binding SIGKILL makes the parsing loop exit fatally
(dmgr.py lines 250-253), so it can never return normally. -/
theorem signalsLoop_kill_fatal :
    ∀ (l : List String) (st st' : RouterState),
      (∃ x ∈ l, ∃ k c, splitChar '=' x = [k, c] ∧ lookupSig k = some SIGKILL) →
      signalsLoop l st ≠ Except.ok st' := by
  intro l
  induction l with
  | nil =>
    intro st st' hex
    obtain ⟨x, hx, -⟩ := hex
    exact absurd hx (by simp)
  | cons y rest ih =>
    intro st st' hex h
    obtain ⟨x, hx, k, c, hsplit, hlook⟩ := hex
    rcases List.mem_cons.mp hx with rfl | hmem
    · rw [signalsLoop, hsplit] at h
      simp [hlook] at h
    · rw [signalsLoop] at h
      split at h
      · split at h
        · exact absurd h (by simp)
        · split at h
          · exact absurd h (by simp)
          · split at h
            · exact absurd h (by simp)
            · split at h
              · exact absurd h (by simp)
              · split at h
                · exact ih _ st' ⟨x, hmem, k, c, hsplit, hlook⟩ h
                · exact ih _ st' ⟨x, hmem, k, c, hsplit, hlook⟩ h
      · exact absurd h (by simp)

/-- A signals entry binding SIGSTOP passes all the parsing checks (the
uncatchable-signal check at dmgr.py line 251 tests SIGTSTP, not SIGSTOP)
and, with an empty passthrough map, ends up as a key of the command
map. -/
theorem signalsLoop_stop_mem :
    ∀ (l : List String) (st st' : RouterState),
      st.passthroughmap = [] →
      (∃ x ∈ l, ∃ k c, splitChar '=' x = [k, c] ∧ lookupSig k = some SIGSTOP) →
      signalsLoop l st = Except.ok st' →
      SIGSTOP ∈ st'.signal_commands.map Prod.fst := by
  intro l
  induction l with
  | nil =>
    intro st st' _ hex _
    obtain ⟨x, hx, -⟩ := hex
    exact absurd hx (by simp)
  | cons y rest ih =>
    intro st st' hpmap hex h
    obtain ⟨x, hx, k, c, hsplit, hlook⟩ := hex
    rcases List.mem_cons.mp hx with rfl | hmem
    · rw [signalsLoop, hsplit] at h
      simp only [hlook, hpmap] at h
      rw [if_neg (by decide)] at h
      rw [if_neg (by decide)] at h
      rw [if_neg (by decide)] at h
      rw [if_neg (by simp)] at h
      exact signalsLoop_keys_mono SIGSTOP rest _ st' h (dictInsert_self_mem SIGSTOP c _)
    · rw [signalsLoop] at h
      split at h
      · split at h
        · exact absurd h (by simp)
        · split at h
          · exact absurd h (by simp)
          · split at h
            · exact absurd h (by simp)
            · split at h
              · exact absurd h (by simp)
              · split at h
                · refine ih _ st' ?_ ⟨x, hmem, k, c, hsplit, hlook⟩ h
                  exact hpmap
                · refine ih _ st' ?_ ⟨x, hmem, k, c, hsplit, hlook⟩ h
                  exact hpmap
      · exact absurd h (by simp)

/-- Registering a handler for SIGSTOP fails: `signal.signal` raises
OSError for uncatchable signals, and dmgr.py does not catch it. -/
theorem regList_stop_fatal :
    ∀ (l : List Sig) (acc : List Sig), SIGSTOP ∈ l → ∃ f, regList l acc = Except.error f := by
  intro l
  induction l with
  | nil =>
    intro acc h
    exact absurd h (by simp)
  | cons sg rest ih =>
    intro acc h
    rcases List.mem_cons.mp h with rfl | hmem
    · refine ⟨Fatal.osError, ?_⟩
      rw [regList]
      rw [show regSignal SIGSTOP = Except.error Fatal.osError from rfl]
    · rcases hr : regSignal sg with f | u
      · exact ⟨f, by rw [regList, hr]⟩
      · obtain ⟨f, hf⟩ := ih (acc ++ [sg]) hmem
        exact ⟨f, by rw [regList, hr, hf]⟩

/-- The registration block fails when SIGSTOP is a command-map key. -/
theorem registerAll_stop_fatal (st : RouterState)
    (h : SIGSTOP ∈ st.signal_commands.map Prod.fst) :
    ∃ f, registerAll st = Except.error f := by
  obtain ⟨f, hf⟩ := regList_stop_fatal (st.signal_commands.map Prod.fst) [] h
  refine ⟨f, ?_⟩
  unfold registerAll
  rw [hf]

/-- C2: the passthrough configuration `SIGUSR1=SIGUSR2` maps one valid
OS signal to another, yet `process_config` crashes with NameError
(dmgr.py line 226 reads the undefined module-level name `signal_lookup`
instead of `self.signal_lookup`), so configuration never succeeds and
the signal-forwarding path of the monitoring loop is unreachable. -/
theorem C2_valid_passthrough_crashes :
    lookupSig "SIGUSR1" = some ⟨"SIGUSR1", 10⟩ ∧
    lookupSig "SIGUSR2" = some ⟨"SIGUSR2", 12⟩ ∧
    process_config { passthrough := some "SIGUSR1=SIGUSR2", stopcmd := none, signals := none } =
      Except.error Fatal.nameError :=
  ⟨rfl, rfl, rfl⟩

/-- C3: with `stopcmd` configured but no `signals` string, the
SignalCommandMap holds the TERM and INT entries derived from stopcmd,
yet no OS-level handler is registered at all: the registration loops
(dmgr.py lines 268-276) sit inside the `if "signals" in self.config:`
block, so the claim's "in every configuration" fails. -/
theorem C3_stopcmd_without_signals_registers_nothing :
    process_config { passthrough := none, stopcmd := some "stop.sh", signals := none } =
      Except.ok { exit_signals := [SIGINT, SIGTERM],
                  signal_commands := [(SIGTERM, "stop.sh"), (SIGINT, "stop.sh")],
                  passthroughmap := [], registered := [] } :=
  rfl

/-- C5: a passthrough configuration containing an unknown signal name
(in either position of some entry) makes `process_config` terminate the
process abnormally: every `Fatal` outcome ends the interpreter with a
non-zero exit status before any process is supervised.  (The exit
happens via an uncaught KeyError or NameError rather than the logged
`sys.exit`, because line 229 lacks the exit call.) -/
theorem C5_unknown_passthrough_fatal (cfg : Config) (p : String)
    (hp : cfg.passthrough = some p)
    (hunknown : ∃ x ∈ splitChar ';' p, ∃ part ∈ splitChar '=' x, lookupSig part = none) :
    ∃ f, process_config cfg = Except.error f := by
  obtain ⟨x, hx, -⟩ := hunknown
  obtain ⟨y, t, hyt⟩ := List.exists_cons_of_ne_nil (List.ne_nil_of_mem hx)
  obtain ⟨f, hf⟩ := passthroughLoop_fatal y t initRouter
  refine ⟨f, ?_⟩
  unfold process_config passthroughPhase
  simp only [hp]
  rw [hyt, hf]

/-- C5 witness: unknown signal names in the SIG position
(`SIGFOO=SIGHUP`) and in the OTHER position (`SIGHUP=SIGFOO`) are both
fatal at configuration time. -/
theorem C5_witness :
    (∃ f, process_config ⟨some "SIGFOO=SIGHUP", none, none⟩ = Except.error f) ∧
    (∃ f, process_config ⟨some "SIGHUP=SIGFOO", none, none⟩ = Except.error f) :=
  ⟨C5_unknown_passthrough_fatal _ "SIGFOO=SIGHUP" rfl
    ⟨"SIGFOO=SIGHUP", by decide, "SIGFOO", by decide, rfl⟩,
   C5_unknown_passthrough_fatal _ "SIGHUP=SIGFOO" rfl
    ⟨"SIGHUP=SIGFOO", by decide, "SIGFOO", by decide, rfl⟩⟩

/-- C6: a signals configuration with an entry binding the uncatchable
kill signal (SIGKILL) or the uncatchable stop signal (SIGSTOP) to any
command makes `process_config` terminate the process abnormally at
configuration time.  SIGKILL is rejected by the explicit check at
dmgr.py lines 250-253; SIGSTOP slips past that check (which tests
SIGTSTP instead) but then `signal.signal(SIGSTOP, ...)` raises an
uncaught OSError in the registration loop. -/
theorem C6_uncatchable_signal_fatal (cfg : Config) (s : String)
    (hs : cfg.signals = some s)
    (hbind : ∃ x ∈ splitChar ';' s, ∃ k c, splitChar '=' x = [k, c] ∧
      (lookupSig k = some SIGKILL ∨ lookupSig k = some SIGSTOP)) :
    ∃ f, process_config cfg = Except.error f := by
  unfold process_config
  rcases hpt : passthroughPhase cfg initRouter with f | st1
  · exact ⟨f, rfl⟩
  · have hst1 : st1 = initRouter := passthroughPhase_ok cfg st1 hpt
    have hpmap : (stopcmdPhase cfg st1).passthroughmap = [] := by
      rw [stopcmdPhase_pmap, hst1]
      rfl
    show ∃ f, signalsPhase cfg (stopcmdPhase cfg st1) = Except.error f
    unfold signalsPhase
    simp only [hs]
    rcases hloop : signalsLoop (splitChar ';' s) (stopcmdPhase cfg st1) with f | st2
    · exact ⟨f, rfl⟩
    · obtain ⟨x, hx, k, c, hsplit, hlook⟩ := hbind
      rcases hlook with hkill | hstop
      · exact absurd hloop (signalsLoop_kill_fatal _ _ st2 ⟨x, hx, k, c, hsplit, hkill⟩)
      · have hmem := signalsLoop_stop_mem _ _ st2 hpmap ⟨x, hx, k, c, hsplit, hstop⟩ hloop
        obtain ⟨f, hf⟩ := registerAll_stop_fatal st2 hmem
        exact ⟨f, hf⟩

/-- C6 witness: binding SIGKILL and binding SIGSTOP to a command are
each fatal at configuration time. -/
theorem C6_witness :
    (∃ f, process_config ⟨none, none, some "SIGKILL=reboot"⟩ = Except.error f) ∧
    (∃ f, process_config ⟨none, none, some "SIGSTOP=halt"⟩ = Except.error f) :=
  ⟨C6_uncatchable_signal_fatal _ "SIGKILL=reboot" rfl
    ⟨"SIGKILL=reboot", by decide, "SIGKILL", "reboot", rfl, Or.inl rfl⟩,
   C6_uncatchable_signal_fatal _ "SIGSTOP=halt" rfl
    ⟨"SIGSTOP=halt", by decide, "SIGSTOP", "halt", rfl, Or.inr rfl⟩⟩

/-- C8: evaluating `run_cmd_and_wait` with no command (`cmd is None`),
expected outcome STOPPED and the old pid 100 already absent at the first
check.  The claim says it returns success without further polling; the
code instead breaks out of detection at the first check and then the
stabilization loop calls `is_proc_running(cmd_proc)` with
`cmd_proc is None` (dmgr.py line 152), raising AttributeError. -/
theorem C8_none_cmd_stopped_crashes :
    (envGone 0).procExists 100 = false ∧
    run_cmd_and_wait envGone 1 none 10 ExpectedOutcome.stopped =
      Except.error Fatal.attributeError :=
  ⟨rfl, rfl⟩

/-- A resolved process handle is the queried pid itself, and the pid
exists (dmgr.py lines 35-42). -/
theorem get_process_some (s : Snap) (selfPid p q : Nat)
    (h : get_process s selfPid (some p) = some q) : q = p ∧ s.procExists p = true := by
  unfold get_process at h
  cases hex : s.procExists p with
  | false => simp [hex] at h
  | true =>
    simp only [hex, if_true] at h
    exact ⟨(Option.some.inj h).symm, rfl⟩

/-- C9: the startup guard is idempotent once the stale PID file is gone:
after a first call of `check_if_already_running` that proceeded and left
no PID file, a second call changes nothing, does not exit, and lets
startup proceed. -/
theorem C9_guard_idempotent (s : Snap) (selfPid : Nat) (pname : String) (s' : Snap)
    (_h1 : check_if_already_running s selfPid pname = (GuardRes.proceed, s'))
    (h2 : s'.pidfile = none) :
    check_if_already_running s' selfPid pname = (GuardRes.proceed, s') := by
  unfold check_if_already_running
  rw [h2]

/-- C9 witness: the guard run twice against the stale-PID-file world
`snapStale`; the second run is a no-op. -/
theorem C9_witness :
    check_if_already_running snapStale 1 "worker" = (GuardRes.proceed, snapStale') ∧
    check_if_already_running snapStale' 1 "worker" = (GuardRes.proceed, snapStale') :=
  ⟨rfl, C9_guard_idempotent snapStale 1 "worker" snapStale' rfl rfl⟩

/-- C10: when the PID file names a live process whose lower-cased name
differs from the configured (lower-cased) process name, the startup
guard deletes the PID file and proceeds; and the guard refuses to start
only when the PID file names a live process whose lower-cased name
matches. -/
theorem C10_guard_name_mismatch :
    (∀ (s : Snap) (selfPid : Nat) (pname : String) (pid : Nat),
      s.pidfile = some pid → s.procExists pid = true →
      strToLower (s.procName pid) ≠ pname →
      check_if_already_running s selfPid pname =
        (GuardRes.proceed, { s with pidfile := none })) ∧
    (∀ (s : Snap) (selfPid : Nat) (pname : String),
      (check_if_already_running s selfPid pname).1 = GuardRes.alreadyRunning →
      ∃ pid, s.pidfile = some pid ∧ s.procExists pid = true ∧
        strToLower (s.procName pid) = pname) := by
  constructor
  · intro s selfPid pname pid hf hex hne
    simp [check_if_already_running, get_pid_info, get_process, hf, hex, hne]
  · intro s selfPid pname h
    unfold check_if_already_running get_pid_info at h
    rcases hf : s.pidfile with _ | pid
    · simp only [hf] at h
      simp at h
    · simp only [hf] at h
      rcases hgp : get_process s selfPid (some pid) with _ | p
      · simp only [hgp] at h
        simp at h
      · simp only [hgp] at h
        obtain ⟨rfl, hex⟩ := get_process_some s selfPid pid p hgp
        by_cases hname : strToLower (s.procName p) = pname
        · exact ⟨_, rfl, hex, hname⟩
        · rw [if_neg hname] at h
          simp at h

/-- C10 witness: the guard removes the PID file of the live but
unrelated process in `snapAlien` and proceeds, and the refusal in
`snapSelfDup` indeed comes from a live process with a matching
lower-cased name. -/
theorem C10_witness :
    check_if_already_running snapAlien 1 "worker" =
      (GuardRes.proceed, { snapAlien with pidfile := none }) ∧
    (∃ pid, snapSelfDup.pidfile = some pid ∧ snapSelfDup.procExists pid = true ∧
      strToLower (snapSelfDup.procName pid) = "worker") :=
  ⟨C10_guard_name_mismatch.1 snapAlien 1 "worker" 100 rfl rfl (by decide),
   C10_guard_name_mismatch.2 snapSelfDup 1 "worker" rfl⟩

end Dmgr
